import Mathlib

/-!
Shallow embedding of the finance schema module `modules/s3db/fin.py` of
sahana/eden-stable: two model classes, `FinExpensesModel` and
`FinPaymentServiceModel`, each declaring one table (a list of fields with
validation and visibility attributes), a reusable reference field returned
under a global key, and a `defaults` fallback used when the model is
deactivated.  Framework helpers that the module calls but that are not part
of the repository snapshot (web2py validators, eden field helpers) are
modelled from the spec and marked as such in their doc comments.
-/

/-- Validators attachable to a field via its `requires=` attribute,
as configured in `fin.py`. -/
inductive Requires where
  | noReq : Requires
  | isNotEmpty : Requires
  | isEmptyOr : Requires → Requires
  | isInSet : List String → Option String → Requires
  | isURL : String → List String → String → Requires
  | isOneOf : String → Requires
deriving DecidableEq, Repr

/-- A table field as declared through the framework `Field(...)` constructor:
name, type, optional length, `notnull`, label, default, visibility flags
(`readable`/`writable`, both defaulting to `True`), `ondelete` behaviour for
reference fields, and the attached validator. -/
structure S3Field where
  fname : String
  ftype : String := "string"
  length : Option Nat := none
  notnull : Bool := false
  label : String := ""
  defaultVal : Option String := none
  readable : Bool := true
  writable : Bool := true
  ondelete : Option String := none
  requires : Requires := Requires.noReq
deriving DecidableEq, Repr

/-- Modelled from the spec: the `s3_date()` field helper (eden framework code
not in src/) declares a date field named `date`. -/
def s3_date : S3Field := { fname := "date", ftype := "date" }

/-- Modelled from the spec: the `s3_currency()` field helper (eden framework
code not in src/) declares a currency-code field named `currency`. -/
def s3_currency : S3Field := { fname := "currency", length := some 3 }

/-- Modelled from the spec: the `s3_comments()` field helper (eden framework
code not in src/) declares a free-text comments field. -/
def s3_comments : S3Field := { fname := "comments", ftype := "text" }

/-- Modelled from the spec: the `s3_meta_fields()` audit-metadata mixin (eden
framework code not in src/): creator, timestamps, and the deletion flag that
the framework soft-delete mechanism sets instead of removing the row. -/
def s3_meta_fields : List S3Field :=
  [ { fname := "created_by", ftype := "reference auth_user",
      readable := false, writable := false },
    { fname := "created_on", ftype := "datetime",
      readable := false, writable := false },
    { fname := "modified_by", ftype := "reference auth_user",
      readable := false, writable := false },
    { fname := "modified_on", ftype := "datetime",
      readable := false, writable := false },
    { fname := "deleted", ftype := "boolean", defaultVal := some "False",
      readable := false, writable := false } ]

namespace FinExpensesModel

/-- `FinExpensesModel.names` as declared in `fin.py`. -/
def names : List String := ["fin_expense", "fin_expense_id"]

/-- The `doc_id` super-link to the polymorphic document entity. -/
def doc_id : S3Field := { fname := "doc_id", ftype := "super_link doc_entity" }

/-- `Field("name", length=128, notnull=True, label=T("Short Description"))`. -/
def expense_name : S3Field :=
  { fname := "name", length := some 128, notnull := true,
    label := "Short Description" }

/-- `Field("value", "double", label=T("Value"), represent=...)`;
the represent lambda is embedded separately as `representFloatAmount`. -/
def expense_value : S3Field :=
  { fname := "value", ftype := "double", label := "Value" }

/-- The field list of the `fin_expense` table, in declaration order. -/
def fin_expense : List S3Field :=
  [doc_id, expense_name, s3_date, expense_value, s3_currency, s3_comments]
    ++ s3_meta_fields

/-- The reusable reference field `expense_id` returned by `model()`:
`reference fin_expense`, `ondelete="CASCADE"`,
`requires=IS_EMPTY_OR(IS_ONE_OF(db, "fin_expense.id", ...))`. -/
def expense_id : S3Field :=
  { fname := "expense_id", ftype := "reference fin_expense",
    label := "Expense", ondelete := some "CASCADE",
    requires := Requires.isEmptyOr (Requires.isOneOf ("fin_expense.id")) }

/-- The dictionary returned by `FinExpensesModel.model()`. -/
def model_returns : List (String × S3Field) := [("fin_expense_id", expense_id)]

/-- The dummy placeholder built in `defaults()`:
`S3ReusableField("dummy_id", "integer", readable=False, writable=False)`
called with the name `expense_id`. -/
def dummy (n : String) : S3Field :=
  { fname := n, ftype := "integer", readable := false, writable := false }

/-- The dictionary returned by `FinExpensesModel.defaults()`. -/
def defaults : List (String × S3Field) :=
  [("fin_expense_id", dummy ("expense_id"))]

end FinExpensesModel

namespace FinPaymentServiceModel

/-- `FinPaymentServiceModel.names` as declared in `fin.py`
(the tuple contains only `"fin_payment_service"`; a `"fin_payment_log"`
entry is commented out). -/
def names : List String := ["fin_payment_service"]

/-- The `api_types` options dictionary: `{"PAYPAL": "PayPal"}`. -/
def api_types : List (String × String) := [("PAYPAL", "PayPal")]

/-- `Field("name", requires=IS_NOT_EMPTY())`. -/
def service_name : S3Field := { fname := "name", requires := Requires.isNotEmpty }

/-- `self.org_organisation_id(empty=False)`: required owning-organisation
reference (the reusable field comes from the org module, not in src/). -/
def organisation_id : S3Field :=
  { fname := "organisation_id", ftype := "reference org_organisation",
    requires := Requires.isOneOf ("org_organisation.id") }

/-- `Field("api_type", default="PAYPAL", requires=IS_IN_SET(api_types, zero=None))`. -/
def api_type : S3Field :=
  { fname := "api_type", defaultVal := some "PAYPAL", label := "API Type",
    requires := Requires.isInSet (api_types.map Prod.fst) none }

/-- `Field("base_url", requires=IS_EMPTY_OR(IS_URL(mode="generic",
allowed_schemes=["http", "https"], prepend_scheme="https")))`. -/
def base_url : S3Field :=
  { fname := "base_url", label := "Base URL",
    requires := Requires.isEmptyOr
      (Requires.isURL ("generic") ["http", "https"] ("https")) }

/-- `Field("use_proxy", "boolean", default=False)`. -/
def use_proxy : S3Field :=
  { fname := "use_proxy", ftype := "boolean", defaultVal := some "False",
    label := "Use Proxy" }

/-- `Field("proxy")`. -/
def proxy : S3Field := { fname := "proxy", label := "Proxy Server" }

/-- `Field("username")`. -/
def username : S3Field := { fname := "username", label := "Username (Client ID)" }

/-- `Field("password")`. -/
def password : S3Field :=
  { fname := "password", label := "Password (Client Secret)" }

/-- `Field("token_type", readable=False, writable=False)`. -/
def token_type : S3Field :=
  { fname := "token_type", label := "Token Type",
    readable := false, writable := false }

/-- `Field("access_token", readable=False, writable=False)`. -/
def access_token : S3Field :=
  { fname := "access_token", label := "Access Token",
    readable := false, writable := false }

/-- `s3_datetime("token_expiry_date", default=None, writable=False)`; the
`readable = False` line is commented out in the source, so `readable` keeps
its default `True`. -/
def token_expiry_date : S3Field :=
  { fname := "token_expiry_date", ftype := "datetime",
    label := "Token expires on", writable := false }

/-- The field list of the `fin_payment_service` table, in declaration order. -/
def fin_payment_service : List S3Field :=
  [service_name, organisation_id, api_type, base_url, use_proxy, proxy,
   username, password, token_type, access_token, token_expiry_date]
    ++ s3_meta_fields

/-- The reusable reference field `service_id` returned by `model()`:
`reference fin_payment_service`, `ondelete="RESTRICT"`,
`requires=IS_EMPTY_OR(IS_ONE_OF(db, "fin_payment_service.id", ...))`. -/
def service_id : S3Field :=
  { fname := "service_id", ftype := "reference fin_payment_service",
    label := "Payment Service", ondelete := some "RESTRICT",
    requires := Requires.isEmptyOr (Requires.isOneOf ("fin_payment_service.id")) }

/-- The dictionary returned by `FinPaymentServiceModel.model()`. -/
def model_returns : List (String × S3Field) := [("fin_service_id", service_id)]

/-- The dummy placeholder built in `defaults()`, identical in shape to the
one in `FinExpensesModel.defaults`. -/
def dummy (n : String) : S3Field :=
  { fname := n, ftype := "integer", readable := false, writable := false }

/-- The dictionary returned by `FinPaymentServiceModel.defaults()`. -/
def defaults : List (String × S3Field) :=
  [("fin_service_id", dummy ("service_id"))]

end FinPaymentServiceModel

/-- Chars allowed in a bare domain name. -/
def isDomainChar (c : Char) : Bool := c.isAlphanum || c == ('.') || c == ('-')

/-- Chars allowed in the part of a URL after the scheme (host, port, path). -/
def isHostPathChar (c : Char) : Bool :=
  c.isAlphanum || c == ('.') || c == ('-') || c == ('/') || c == (':')
    || c == ('_') || c == ('~')

/-- A bare domain: non-empty, only domain chars, and containing a dot. -/
def isDomain (cs : List Char) : Bool :=
  !cs.isEmpty && cs.all isDomainChar && cs.any (fun c => c == ('.'))

/-- A non-empty host-with-optional-path after the scheme separator. -/
def isHostPath (cs : List Char) : Bool := !cs.isEmpty && cs.all isHostPathChar

/-- Split a character list at the first occurrence of the scheme separator
`://`, returning the part before it and the part after it. -/
def splitSchemeAux : List Char → List Char → Option (List Char × List Char)
  | acc, (':') :: ('/') :: ('/') :: rest => some (acc.reverse, rest)
  | acc, c :: rest => splitSchemeAux (c :: acc) rest
  | _, [] => none

/-- Modelled from the spec: the framework URL validator (web2py `IS_URL` in
mode "generic", not part of src/): accepts a URL whose scheme is among the
allowed schemes, rejects text that is not a URL, and prepends the configured
`prepend_scheme` to a bare domain. Returns the (possibly rewritten) value on
success and `none` on rejection. -/
def validateURL (allowed : List String) (pre : String) (v : String) :
    Option String :=
  match splitSchemeAux [] v.toList with
  | some (scheme, rest) =>
      if (String.mk scheme) ∈ allowed && isHostPath rest then some v else none
  | none =>
      if isDomain v.toList then some (pre ++ ("://") ++ v) else none

/-- Modelled from the spec: framework validation semantics for the
validators configured in `fin.py` (web2py `IS_NOT_EMPTY`, `IS_EMPTY_OR`,
`IS_IN_SET` with `zero=None`, `IS_URL`; not part of src/). `IS_ONE_OF`
performs a database lookup that is out of scope here and is modelled as
accepting. Returns the validated value, or `none` on a constraint
violation. -/
def validate : Requires → String → Option String
  | Requires.noReq, v => some v
  | Requires.isNotEmpty, v => if v = "" then none else some v
  | Requires.isEmptyOr r, v => if v = "" then some v else validate r v
  | Requires.isInSet opts _, v => if v ∈ opts then some v else none
  | Requires.isURL _ allowed pre, v => validateURL allowed pre v
  | Requires.isOneOf _, v => some v

/-- Modelled from the spec: the framework assigns a default non-empty
validator to a required (`notnull=True`) string field without an explicit
`requires`, so empty input is rejected at form submission; an explicit
`requires` takes precedence. -/
def effectiveRequires (f : S3Field) : Requires :=
  match f.requires with
  | Requires.noReq =>
      if f.notnull && f.ftype == "string" then Requires.isNotEmpty
      else Requires.noReq
  | r => r

/-- The integer number of cents obtained by rounding `v * 100` half-up,
i.e. `⌊v * 100 + 1/2⌋`, computed from the numerator and denominator. -/
def roundCents (v : ℚ) : ℤ := Int.fdiv (200 * v.num + (v.den : ℤ)) (2 * (v.den : ℤ))

/-- The zero-padded two-digit decimal rendering of a cent remainder. -/
def twoDigits (k : Nat) : String :=
  String.mk [Char.ofNat (48 + k / 10), Char.ofNat (48 + k % 10)]

/-- Modelled from the spec: `IS_FLOAT_AMOUNT.represent(v, precision=2)`
(eden framework code not in src/), the represent hook of the expense
`value` field: renders the amount with exactly two decimal places. -/
def representFloatAmount (v : ℚ) : String :=
  let n := roundCents v
  (if n < 0 then "-" else "") ++ (n.natAbs / 100).repr
    ++ ("." ++ twoDigits (n.natAbs % 100))

/-- A persisted row of the `fin_expense` table: record id, the persisted
field values, and the `deleted` metadata flag from `s3_meta_fields`. -/
structure ExpenseRow where
  id : Nat
  fieldVals : List (String × String)
  deleted : Bool
deriving DecidableEq, Repr

/-- Modelled from the spec: the framework standard deletion path (not part
of src/) soft-deletes: it sets the `deleted` flag of the matching row and
leaves the row itself, and every other persisted field, in place. -/
def softDelete (rows : List ExpenseRow) (rid : Nat) : List ExpenseRow :=
  rows.map (fun r => if r.id == rid then { r with deleted := true } else r)

/-- Deleting parent `pid` under CASCADE: the parent row and every
referencing row are removed. `refs` pairs a referencing row id with the
parent id it references. -/
def deleteCascade (ps : List Nat) (refs : List (Nat × Nat)) (pid : Nat) :
    List Nat × List (Nat × Nat) :=
  (ps.filter (fun p => p != pid), refs.filter (fun c => c.2 != pid))

/-- Deleting parent `pid` under RESTRICT: fails (returning `none`, state
unchanged) whenever some row still references `pid`. -/
def deleteRestrict (ps : List Nat) (refs : List (Nat × Nat)) (pid : Nat) :
    Option (List Nat × List (Nat × Nat)) :=
  if refs.any (fun c => c.2 == pid) then none
  else some (ps.filter (fun p => p != pid), refs)

/-- Modelled from the spec: relational `ondelete` semantics for the two
behaviours declared in `fin.py` ("CASCADE" on `expense_id`, "RESTRICT" on
`service_id`). -/
def applyOndelete (od : String) (ps : List Nat) (refs : List (Nat × Nat))
    (pid : Nat) : Option (List Nat × List (Nat × Nat)) :=
  if od == "CASCADE" then some (deleteCascade ps refs pid)
  else if od == "RESTRICT" then deleteRestrict ps refs pid
  else none

/-- Look up a field by name in a table's field list. -/
def findField (fields : List S3Field) (n : String) : Option S3Field :=
  fields.find? (fun f => f.fname == n)

/-- Every element surviving `List.filter f` satisfies `f`. -/
theorem all_filter_self {α : Type} (f : α → Bool) (l : List α) :
    (l.filter f).all f = true := by
  induction l with
  | nil => rfl
  | cons a t ih => cases h : f a <;> simp [List.filter_cons, h, ih]

/-- `Char.ofNat (48 + d)` is a decimal digit character when `d < 10`. -/
theorem char_ofNat_digit_isDigit (d : Nat) (h : d < 10) :
    (Char.ofNat (48 + d)).isDigit = true := by
  interval_cases d <;> decide

/-- Both characters produced by `twoDigits` are decimal digits when the
input is a cent remainder below 100. -/
theorem twoDigits_all_digit (k : Nat) (h : k < 100) :
    (twoDigits k).data.all Char.isDigit = true := by
  have h1 : k / 10 < 10 := by omega
  have h2 : k % 10 < 10 := Nat.mod_lt _ (by omega)
  simp only [twoDigits, List.all_cons, List.all_nil, Bool.and_true]
  rw [char_ofNat_digit_isDigit _ h1, char_ofNat_digit_isDigit _ h2]
  rfl

/-- C1: the module's public surface is the two keys "fin_expense_id" and
"fin_service_id" returned into the shared namespace; the claim that for each
key the owning model's declared `names` and its returned dictionary both
cover the key fails on the code: `FinPaymentServiceModel.names` omits
"fin_service_id" although `model()` returns it, so name-based resolution
cannot cover that key. -/
theorem c1_exposed_keys_vs_declared_names :
    FinExpensesModel.model_returns.map Prod.fst = ["fin_expense_id"]
    ∧ "fin_expense_id" ∈ FinExpensesModel.names
    ∧ FinPaymentServiceModel.model_returns.map Prod.fst = ["fin_service_id"]
    ∧ "fin_service_id" ∉ FinPaymentServiceModel.names := by decide

/-- C2: when either model is deactivated, its `defaults()` dictionary still
resolves the reference-field key to a placeholder field whose `readable` and
`writable` attributes are both `False`. -/
theorem c2_defaults_resolve_placeholder :
    FinExpensesModel.defaults.lookup ("fin_expense_id")
      = some (FinExpensesModel.dummy ("expense_id"))
    ∧ (FinExpensesModel.dummy ("expense_id")).readable = false
    ∧ (FinExpensesModel.dummy ("expense_id")).writable = false
    ∧ FinPaymentServiceModel.defaults.lookup ("fin_service_id")
      = some (FinPaymentServiceModel.dummy ("service_id"))
    ∧ (FinPaymentServiceModel.dummy ("service_id")).readable = false
    ∧ (FinPaymentServiceModel.dummy ("service_id")).writable = false := by decide

/-- C3: the `base_url` field is configured with `IS_EMPTY_OR(IS_URL)` over
allowed schemes http and https with prepend scheme "https"; its validation
accepts "https://api.example.com" and "http://api.example.com", rejects
"not-a-url", and prepends "https://" to the bare domain "api.example.com". -/
theorem c3_base_url_validation :
    FinPaymentServiceModel.base_url.requires
      = Requires.isEmptyOr
          (Requires.isURL ("generic") ["http", "https"] ("https"))
    ∧ validate (FinPaymentServiceModel.base_url.requires)
        ("https://api.example.com") = some ("https://api.example.com")
    ∧ validate (FinPaymentServiceModel.base_url.requires)
        ("http://api.example.com") = some ("http://api.example.com")
    ∧ validate (FinPaymentServiceModel.base_url.requires) ("not-a-url") = none
    ∧ validate (FinPaymentServiceModel.base_url.requires) ("api.example.com")
        = some ("https://api.example.com") := by decide

/-- C4: the `api_type` field is configured with `IS_IN_SET` over the single
key "PAYPAL" and `zero=None`; its validation accepts "PAYPAL" and rejects
every other value, admitting no empty option. -/
theorem c4_api_type_enumeration :
    FinPaymentServiceModel.api_type.requires
      = Requires.isInSet ["PAYPAL"] none
    ∧ validate (FinPaymentServiceModel.api_type.requires) ("PAYPAL")
        = some ("PAYPAL")
    ∧ (∀ v : String,
        validate (Requires.isInSet ["PAYPAL"] none) v = some v ↔ v = "PAYPAL")
    ∧ (∀ v : String,
        validate (Requires.isInSet ["PAYPAL"] none) v = none ↔ v ≠ "PAYPAL") := by
  refine ⟨rfl, by decide, ?_, ?_⟩ <;>
    · intro v
      by_cases h : v = "PAYPAL" <;> simp [validate, h]

/-- C5: the expense `value` field's represent function renders every finite
amount with exactly two decimal places: the output decomposes as an integer
part, a dot, and a two-character fractional part made of decimal digits;
in particular the input 12 renders as "12.00". -/
theorem c5_value_two_decimal_places :
    (∀ v : ℚ,
      representFloatAmount v
        = ((if roundCents v < 0 then "-" else "")
            ++ ((roundCents v).natAbs / 100).repr)
          ++ ("." ++ twoDigits ((roundCents v).natAbs % 100))
      ∧ (twoDigits ((roundCents v).natAbs % 100)).length = 2
      ∧ (twoDigits ((roundCents v).natAbs % 100)).data.all Char.isDigit = true)
    ∧ representFloatAmount 12 = "12.00" := by
  refine ⟨fun v => ⟨rfl, rfl, ?_⟩, by decide⟩
  exact twoDigits_all_digit _ (Nat.mod_lt _ (by omega))

/-- C6: both tables require their name field: the expense "name" field is
declared `notnull=True` so the framework default validator rejects empty
input, and the payment-service "name" field carries an explicit
`IS_NOT_EMPTY`, which rejects empty input. -/
theorem c6_name_required :
    FinExpensesModel.expense_name.notnull = true
    ∧ effectiveRequires FinExpensesModel.expense_name = Requires.isNotEmpty
    ∧ validate (effectiveRequires FinExpensesModel.expense_name) ("") = none
    ∧ FinPaymentServiceModel.service_name.requires = Requires.isNotEmpty
    ∧ validate (effectiveRequires FinPaymentServiceModel.service_name) ("")
        = none
    ∧ findField FinExpensesModel.fin_expense ("name")
        = some FinExpensesModel.expense_name
    ∧ findField FinPaymentServiceModel.fin_payment_service ("name")
        = some FinPaymentServiceModel.service_name := by decide

/-- C7: in the registered `fin_payment_service` table, the three OAuth
bookkeeping fields `token_type`, `access_token` and `token_expiry_date` all
have `writable=False`, so none can be set through the UI forms. -/
theorem c7_token_fields_write_protected :
    findField FinPaymentServiceModel.fin_payment_service ("token_type")
      = some FinPaymentServiceModel.token_type
    ∧ findField FinPaymentServiceModel.fin_payment_service ("access_token")
      = some FinPaymentServiceModel.access_token
    ∧ findField FinPaymentServiceModel.fin_payment_service ("token_expiry_date")
      = some FinPaymentServiceModel.token_expiry_date
    ∧ FinPaymentServiceModel.token_type.writable = false
    ∧ FinPaymentServiceModel.access_token.writable = false
    ∧ FinPaymentServiceModel.token_expiry_date.writable = false := by decide

/-- C8: the metadata mixin carries a `deleted` flag, and the standard
deletion path soft-deletes: it keeps every row (the table length and the
row ids are unchanged), keeps every other persisted field value unchanged,
and sets the `deleted` flag of the targeted row. -/
theorem c8_soft_delete_frame :
    ("deleted" ∈ s3_meta_fields.map S3Field.fname)
    ∧ (∀ (rows : List ExpenseRow) (rid : Nat),
        (softDelete rows rid).length = rows.length)
    ∧ (∀ (rows : List ExpenseRow) (rid : Nat),
        (softDelete rows rid).map ExpenseRow.id = rows.map ExpenseRow.id)
    ∧ (∀ (rows : List ExpenseRow) (rid : Nat),
        (softDelete rows rid).map ExpenseRow.fieldVals
          = rows.map ExpenseRow.fieldVals)
    ∧ (∀ (rows : List ExpenseRow) (rid : Nat),
        (softDelete rows rid).all (fun r => r.id != rid || r.deleted) = true) := by
  refine ⟨by decide, ?_, ?_, ?_, ?_⟩ <;> intro rows rid <;>
    induction rows with
    | nil => rfl
    | cons r t ih =>
      simp only [softDelete, List.map_cons, List.length_cons, List.all_cons] at ih ⊢
      cases h : r.id == rid <;> simp_all

/-- C9: the two reference fields have asymmetric delete behaviour:
`expense_id` is declared with `ondelete="CASCADE"`, under which deleting a
referenced parent also removes every referencing row, while `service_id` is
declared with `ondelete="RESTRICT"`, under which the delete fails (state
unchanged) exactly when some row still references the parent. -/
theorem c9_ondelete_asymmetry :
    FinExpensesModel.expense_id.ondelete = some "CASCADE"
    ∧ FinPaymentServiceModel.service_id.ondelete = some "RESTRICT"
    ∧ (∀ (ps : List Nat) (refs : List (Nat × Nat)) (pid : Nat),
        applyOndelete ("CASCADE") ps refs pid = some (deleteCascade ps refs pid))
    ∧ (∀ (ps : List Nat) (refs : List (Nat × Nat)) (pid : Nat),
        ((deleteCascade ps refs pid).1.all (fun p => p != pid)
          && (deleteCascade ps refs pid).2.all (fun c => c.2 != pid)) = true)
    ∧ (∀ (ps : List Nat) (refs : List (Nat × Nat)) (pid : Nat),
        applyOndelete ("RESTRICT") ps refs pid = deleteRestrict ps refs pid)
    ∧ (∀ (ps : List Nat) (refs : List (Nat × Nat)) (pid : Nat),
        deleteRestrict ps refs pid = none
          ↔ refs.any (fun c => c.2 == pid) = true) := by
  refine ⟨rfl, rfl, fun ps refs pid => rfl, ?_, fun ps refs pid => rfl, ?_⟩
  · intro ps refs pid
    simp [deleteCascade, all_filter_self]
  · intro ps refs pid
    unfold deleteRestrict
    cases h : refs.any (fun c => c.2 == pid) <;> simp [h]

/-- C10: among the write-protected token fields, `token_type` and
`access_token` are also hidden (`readable=False`), while
`token_expiry_date` keeps the default `readable=True` and only has
`writable=False`, so the expiry is visible but the token and its type are
not. -/
theorem c10_token_fields_visibility :
    FinPaymentServiceModel.token_type.readable = false
    ∧ FinPaymentServiceModel.access_token.readable = false
    ∧ FinPaymentServiceModel.token_expiry_date.readable = true
    ∧ FinPaymentServiceModel.token_type.writable = false
    ∧ FinPaymentServiceModel.access_token.writable = false
    ∧ FinPaymentServiceModel.token_expiry_date.writable = false := by decide
